import Mathlib

/-!
Verification development for the voice_wa real-time session orchestrator.

The definitions below are a shallow embedding of the client-side session
code: the turn-taking state machine, the capture/encode pipeline, the
playback scheduler and the PCM16 codec.  Machine floats are modelled as
rationals (every arithmetic step performed by the code on the relevant
ranges is exact in double precision, so the rational model is faithful),
the JavaScript Int16Array element conversion is modelled with explicit
truncation toward zero followed by wrap-around modulo 2^16, and the
event-driven handlers become pure state-transition functions.
-/

namespace VoiceWA

/-- Session modes of the voice agent (type AgentMode in VoiceAgent.tsx). -/
inductive AgentMode
  | inactive
  | ready
  | listening
  | thinking
  | speaking
deriving DecidableEq

/-- Connection status (enum ConnectionStatus in types.ts). -/
inductive ConnectionStatus
  | DISCONNECTED
  | CONNECTING
  | CONNECTED
  | ERROR
deriving DecidableEq

/-- The volume value handed to setCurrentVolume.  The code either reports a
literal zero or the value min(1, rms * 5) where rms is the square root of
the mean square of the frame; since the square root is irrational in
general we record the mean square and interpret it with volIs below. -/
inductive VolLevel
  | zero
  | ofMeanSq (m : ℚ)
deriving DecidableEq

/-- The mutable session state of the VoiceAgent component: React state
(status, mode, errorMsg, volume) together with the refs that hold the
capture pipeline, the output pipeline, the transport session promise, the
playback cursor nextStartTimeRef and the in-flight set sourcesRef.
In-flight buffer sources are identified by natural numbers; stopped
records every source on which stop() has been called. -/
structure AgentState where
  status : ConnectionStatus := ConnectionStatus.DISCONNECTED
  mode : AgentMode := AgentMode.inactive
  errorMsg : Option String := none
  volume : VolLevel := VolLevel.zero
  streamOpen : Bool := false
  inputCtxOpen : Bool := false
  outputCtxOpen : Bool := false
  sessionOpen : Bool := false
  nextStartTime : ℚ := 0
  inFlight : List ℕ := []
  stopped : List ℕ := []
deriving DecidableEq

/-! ### PCM16 codec (audioUtils: createPcmBlob / decodeAudioData / createSilentAudio) -/

/-- JavaScript number-to-integer conversion used by ToIntegerOrInfinity:
truncation toward zero. -/
def truncQ (q : ℚ) : ℤ := if 0 ≤ q then ⌊q⌋ else ⌈q⌉

/-- Wrap an integer into the signed 16-bit range, as the Int16Array element
assignment (ToInt16) does. -/
def toInt16 (z : ℤ) : ℤ := (z + 32768) % 65536 - 32768

/-- Clamp a float sample to [-1, 1] (Math.max(-1, Math.min(1, data[i]))). -/
def clampUnit (s : ℚ) : ℚ := max (-1) (min 1 s)

/-- One sample of createPcmBlob: clamp to [-1, 1], scale negatives by
0x8000 and non-negatives by 0x7FFF, and store into an Int16Array slot. -/
def encodeSample (s : ℚ) : ℤ :=
  if clampUnit s < 0 then toInt16 (truncQ (clampUnit s * 32768))
  else toInt16 (truncQ (clampUnit s * 32767))

/-- One sample of decodeAudioData: divide the Int16 value by 32768.0. -/
def decodeSample (v : ℤ) : ℚ := (v : ℚ) / 32768

/-- The PCM16 payload produced by createPcmBlob for a captured frame. -/
def createPcmChunk (frame : List ℚ) : List ℤ := frame.map encodeSample

/-- createSilentAudio: an Int16Array of sampleRate * durationSec zero
samples (Int16Array lengths go through ToIndex, which truncates). -/
def createSilentAudio (sampleRate : ℕ) (durationSec : ℚ) : List ℤ :=
  List.replicate (⌊(sampleRate : ℚ) * durationSec⌋).toNat 0

/-! ### Playback scheduler (the audio branch of the onmessage handler) -/

/-- One enqueue of a decoded segment: the unit starts at
max(nextStart, outputClockNow) and the cursor advances by its duration.
Returns (start time, new cursor). -/
def enqueueUnit (cursor now dur : ℚ) : ℚ × ℚ :=
  (max cursor now, max cursor now + dur)

/-- The scheduled start times produced by enqueueing a sequence of units,
each given as (output clock reading at enqueue time, duration). -/
def scheduleStarts : ℚ → List (ℚ × ℚ) → List ℚ
  | _, [] => []
  | c, u :: rest =>
      (enqueueUnit c u.1 u.2).1 :: scheduleStarts (enqueueUnit c u.1 u.2).2 rest

/-! ### Capture pipeline (processor.onaudioprocess) -/

/-- Mean square of a frame: sum of squared samples divided by the length
(the rms used by the visualizer is its square root). -/
def meanSq (frame : List ℚ) : ℚ :=
  ((frame.map fun s => s * s).sum) / (frame.length : ℚ)

/-- Interpretation of a VolLevel as the real number handed to
setCurrentVolume: zero, or min(1, rms * 5) with rms the root mean
square. -/
def volIs : VolLevel → ℝ → Prop
  | VolLevel.zero, v => v = 0
  | VolLevel.ofMeanSq m, v => v = min 1 (5 * Real.sqrt (m : ℝ))

/-- The onaudioprocess callback: when the mode is not listening it reports
volume 0 and returns without sending; when listening it records the frame
volume, encodes the frame with createPcmBlob and hands it to the transport
session.  The second component is the chunk sent, if any. -/
def processFrame (st : AgentState) (frame : List ℚ) : AgentState × Option (List ℤ) :=
  if st.mode ≠ AgentMode.listening then
    ({ st with volume := VolLevel.zero }, none)
  else
    ({ st with volume := VolLevel.ofMeanSq (meanSq frame) },
      some (createPcmChunk frame))

/-! ### Message handlers, mic toggle and cleanup (VoiceAgent.tsx) -/

/-- The audio branch of onmessage: set mode to speaking, move the cursor to
max(nextStart, outputContext.currentTime), start the new buffer source at
that instant, advance the cursor by the buffer duration and add the source
to the in-flight set. -/
def onAudioPayload (now dur : ℚ) (id : ℕ) (st : AgentState) : AgentState :=
  { st with
    mode := AgentMode.speaking,
    nextStartTime := (enqueueUnit st.nextStartTime now dur).2,
    inFlight := st.inFlight ++ [id] }

/-- The interrupted branch of onmessage: stop every in-flight source, clear
the set, reset the cursor to zero and set the mode to ready. -/
def onInterrupted (st : AgentState) : AgentState :=
  { st with
    stopped := st.stopped ++ st.inFlight,
    inFlight := [],
    nextStartTime := 0,
    mode := AgentMode.ready }

/-- cleanup: stop the capture tracks, disconnect the processor and source,
close both audio contexts, stop and clear every in-flight source, close
the transport session, and reset status, mode and volume.  Note that the
code does not touch nextStartTimeRef here. -/
def cleanup (st : AgentState) : AgentState :=
  { st with
    streamOpen := false,
    inputCtxOpen := false,
    outputCtxOpen := false,
    stopped := st.stopped ++ st.inFlight,
    inFlight := [],
    sessionOpen := false,
    status := ConnectionStatus.DISCONNECTED,
    mode := AgentMode.inactive,
    volume := VolLevel.zero }

/-- toggleMic: a no-op unless connected; while listening it moves to
thinking and sends the 500 ms silence chunk; otherwise it stops all
in-flight playback, clears the set, resets the cursor to zero and moves to
listening.  The second component is the chunk sent, if any. -/
def toggleMic (st : AgentState) : AgentState × Option (List ℤ) :=
  if st.status ≠ ConnectionStatus.CONNECTED then (st, none)
  else if st.mode = AgentMode.listening then
    ({ st with mode := AgentMode.thinking }, some (createSilentAudio 16000 (1/2)))
  else
    ({ st with
        stopped := st.stopped ++ st.inFlight,
        inFlight := [],
        nextStartTime := 0,
        mode := AgentMode.listening }, none)

/-- The possible outcomes of one connect() attempt, in program order:
the api key check fails, getUserMedia rejects (caught by the catch block),
the live-session handshake fails (surfaced through the onerror callback,
which runs cleanup), or everything succeeds (onopen runs). -/
inductive ConnectOutcome
  | noApiKey
  | micFail
  | handshakeFail
  | ok
deriving DecidableEq

/-- connect(): models one attempt with the given outcome.  The Bool in the
result records whether the capture device was opened (getUserMedia
resolved) at any point during the attempt. -/
def connect (st : AgentState) (outcome : ConnectOutcome) : AgentState × Bool :=
  match outcome with
  | ConnectOutcome.noApiKey =>
      ({ st with errorMsg := some "API Key missing" }, false)
  | ConnectOutcome.micFail =>
      (cleanup { st with
          status := ConnectionStatus.CONNECTING,
          mode := AgentMode.inactive,
          errorMsg := some "Failed to connect" }, false)
  | ConnectOutcome.handshakeFail =>
      (cleanup { st with
          status := ConnectionStatus.CONNECTING,
          mode := AgentMode.inactive,
          streamOpen := true,
          inputCtxOpen := true,
          outputCtxOpen := true,
          sessionOpen := true,
          errorMsg := some "Connection lost" }, true)
  | ConnectOutcome.ok =>
      ({ st with
          status := ConnectionStatus.CONNECTED,
          mode := AgentMode.ready,
          errorMsg := none,
          streamOpen := true,
          inputCtxOpen := true,
          outputCtxOpen := true,
          sessionOpen := true }, true)

/-- The ended listener of a buffer source: remove it from the in-flight
set; the Bool records whether the set became empty, in which case the
200 ms grace timer is scheduled. -/
def onEnded (id : ℕ) (st : AgentState) : AgentState × Bool :=
  ({ st with inFlight := st.inFlight.erase id },
    (st.inFlight.erase id).isEmpty)

/-- The grace timer firing: return to ready only if the in-flight set is
still empty and the mode is still speaking. -/
def graceFire (st : AgentState) : AgentState :=
  if st.inFlight = [] ∧ st.mode = AgentMode.speaking then
    { st with mode := AgentMode.ready }
  else st

/-! ### Scheduler lemmas -/

/-- Unfolding one enqueue step of the scheduler. -/
theorem scheduleStarts_cons (c : ℚ) (u : ℚ × ℚ) (rest : List (ℚ × ℚ)) :
    scheduleStarts c (u :: rest) =
      max c u.1 :: scheduleStarts (max c u.1 + u.2) rest := rfl

/-- Consecutive scheduled start times satisfy the cursor recurrence:
each start equals the previous start plus the previous duration, unless
the output clock has already passed that instant. -/
theorem schedule_zip_chain (c : ℚ) (units : List (ℚ × ℚ)) :
    List.Chain' (fun p q : ℚ × (ℚ × ℚ) => q.1 = max (p.1 + p.2.2) q.2.1)
      ((scheduleStarts c units).zip units) := by
  induction units generalizing c with
  | nil => simp [scheduleStarts]
  | cons u rest ih =>
    cases rest with
    | nil => simp [scheduleStarts]
    | cons v rest2 =>
      rw [scheduleStarts_cons, scheduleStarts_cons, List.zip_cons_cons,
        List.zip_cons_cons, List.chain'_cons]
      refine ⟨rfl, ?_⟩
      have h := ih (max c u.1 + u.2)
      rwa [scheduleStarts_cons, List.zip_cons_cons] at h

/-- With non-negative durations the scheduled start times never
decrease. -/
theorem schedule_chain_le (c : ℚ) (units : List (ℚ × ℚ))
    (hdur : ∀ u ∈ units, 0 ≤ u.2) :
    List.Chain' (fun a b : ℚ => a ≤ b) (scheduleStarts c units) := by
  induction units generalizing c with
  | nil => simp [scheduleStarts]
  | cons u rest ih =>
    rw [scheduleStarts_cons, List.chain'_cons']
    refine ⟨?_, ih (max c u.1 + u.2) fun v hv => hdur v (List.mem_cons_of_mem u hv)⟩
    intro y hy
    have h0 : (0 : ℚ) ≤ u.2 := hdur u (List.mem_cons_self u rest)
    cases rest with
    | nil => simp [scheduleStarts] at hy
    | cons v rest2 =>
      rw [scheduleStarts_cons] at hy
      simp only [List.head?_cons, Option.mem_def, Option.some.injEq] at hy
      subst hy
      calc max c u.1 ≤ max c u.1 + u.2 := by linarith
        _ ≤ max (max c u.1 + u.2) v.1 := le_max_left _ _

/-- C1: gapless scheduling.  For every sequence of enqueued units, given
as (output clock reading, duration) pairs, the first unit starts at
max(cursor, clock); each later start equals
max(previous start + previous duration, clock at its enqueue), i.e. the
start is max(nextStart, outputClockNow) where nextStart advanced by the
previous duration; with non-negative durations the start times are
non-decreasing; and whenever a unit is enqueued no later than the instant
the previous unit finishes, its start is exactly the previous start plus
the previous duration. -/
theorem C1_gapless_scheduling (cursor : ℚ) (units : List (ℚ × ℚ))
    (hdur : ∀ u ∈ units, 0 ≤ u.2) :
    (∀ s ∈ (scheduleStarts cursor units).head?, ∀ u ∈ units.head?, s = max cursor u.1) ∧
    List.Chain' (fun p q : ℚ × (ℚ × ℚ) => q.1 = max (p.1 + p.2.2) q.2.1)
      ((scheduleStarts cursor units).zip units) ∧
    List.Chain' (fun a b : ℚ => a ≤ b) (scheduleStarts cursor units) ∧
    List.Chain' (fun p q : ℚ × (ℚ × ℚ) => q.2.1 ≤ p.1 + p.2.2 → q.1 = p.1 + p.2.2)
      ((scheduleStarts cursor units).zip units) := by
  refine ⟨?_, schedule_zip_chain cursor units, schedule_chain_le cursor units hdur, ?_⟩
  · cases units with
    | nil => simp [scheduleStarts]
    | cons u rest => simp [scheduleStarts_cons]
  · exact (schedule_zip_chain cursor units).imp
      fun a b hab hle => by rw [hab]; exact max_eq_left hle

/-- Witness for C1 at a concrete two-unit enqueue sequence. -/
theorem C1_gapless_scheduling_witness :
    List.Chain' (fun a b : ℚ => a ≤ b) (scheduleStarts 0 [(0, 1), (0, 2)]) :=
  (C1_gapless_scheduling 0 [(0, 1), (0, 2)] (by
    intro u hu
    rcases List.mem_cons.mp hu with h | h
    · rw [h]; norm_num
    · rcases List.mem_cons.mp h with h2 | h2
      · rw [h2]; norm_num
      · exact absurd h2 (List.not_mem_nil u))).2.2.1

/-! ### Interruption -/

/-- C2: interruption reset.  When a remote interrupted signal arrives
while the session is speaking, every in-flight playback unit is stopped,
the in-flight set becomes empty, the playback cursor resets to zero and
the mode becomes ready — for any number of in-flight units. -/
theorem C2_interruption_reset (st : AgentState) (h : st.mode = AgentMode.speaking) :
    (onInterrupted st).inFlight = [] ∧
    (onInterrupted st).nextStartTime = 0 ∧
    (onInterrupted st).mode = AgentMode.ready ∧
    ∀ id ∈ st.inFlight, id ∈ (onInterrupted st).stopped := by
  refine ⟨rfl, rfl, rfl, fun id hid => ?_⟩
  simp [onInterrupted, hid]

/-- Witness for C2 at a concrete speaking state with two units in
flight. -/
theorem C2_interruption_reset_witness :
    (onInterrupted { mode := AgentMode.speaking, inFlight := [1, 2] }).inFlight = [] ∧
    (onInterrupted { mode := AgentMode.speaking, inFlight := [1, 2] }).nextStartTime = 0 ∧
    (onInterrupted { mode := AgentMode.speaking, inFlight := [1, 2] }).mode = AgentMode.ready ∧
    ∀ id ∈ ({ mode := AgentMode.speaking, inFlight := [1, 2] } : AgentState).inFlight,
      id ∈ (onInterrupted { mode := AgentMode.speaking, inFlight := [1, 2] }).stopped :=
  C2_interruption_reset { mode := AgentMode.speaking, inFlight := [1, 2] } rfl

/-! ### PCM16 codec facts -/

/-- Wrapping is the identity on the signed 16-bit range. -/
theorem toInt16_eq_self (z : ℤ) (h1 : -32768 ≤ z) (h2 : z ≤ 32767) : toInt16 z = z := by
  unfold toInt16
  rw [Int.emod_eq_of_lt (by omega) (by omega)]
  omega

/-- Clamping is the identity on [-1, 1]. -/
theorem clampUnit_eq_self (s : ℚ) (h1 : -1 ≤ s) (h2 : s ≤ 1) : clampUnit s = s := by
  unfold clampUnit
  rw [min_eq_right h2, max_eq_right h1]

/-- Encoding the sample -1.0 gives the minimum 16-bit value. -/
theorem encode_neg_one : encodeSample (-1) = -32768 := by
  norm_num [encodeSample, clampUnit, truncQ, toInt16]
  decide

/-- The sample -1.0 round-trips exactly. -/
theorem decode_encode_neg_one : decodeSample (encodeSample (-1)) = -1 := by
  rw [encode_neg_one]; norm_num [decodeSample]

/-- C3 counterexample: the claimed one-quantization-step bound fails.  The
float32 sample 0.75 + 2 to the -23, which is in [-1, 1], encodes to 24575
(truncation of 0.750000119... * 32767) and decodes to 24575 / 32768, at
distance 257 / 8388608 from the original, which exceeds 1 / 32768 =
256 / 8388608. -/
theorem C3_counterexample :
    (-1 : ℚ) ≤ 6291457 / 8388608 ∧ (6291457 / 8388608 : ℚ) ≤ 1 ∧
    1 / 32768 < |(6291457 / 8388608 : ℚ) - decodeSample (encodeSample (6291457 / 8388608))| := by
  refine ⟨by norm_num, by norm_num, ?_⟩
  norm_num [encodeSample, clampUnit, truncQ, toInt16, decodeSample]
  rw [abs_of_pos (by norm_num)]
  norm_num

/-- C3 (amended): PCM16 round-trip.  For every sample s in [-1, 1],
encoding with createPcmBlob and decoding by dividing by 32768 yields a
value within two quantization steps (2 / 32768) of s; for s ≤ 0 the error
is below one quantization step; and -1.0 round-trips exactly, encoding to
the minimum 16-bit value -32768. -/
theorem C3_pcm16_roundtrip (s : ℚ) (h1 : -1 ≤ s) (h2 : s ≤ 1) :
    |s - decodeSample (encodeSample s)| < 2 / 32768 ∧
    (s ≤ 0 → |s - decodeSample (encodeSample s)| < 1 / 32768) ∧
    encodeSample (-1) = -32768 ∧
    decodeSample (encodeSample (-1)) = -1 := by
  have hc : clampUnit s = s := clampUnit_eq_self s h1 h2
  by_cases hneg : s < 0
  · have hq1 : (-32768 : ℚ) ≤ s * 32768 := by linarith
    have hq2 : s * 32768 < 0 := by linarith
    have henc : encodeSample s = ⌈s * 32768⌉ := by
      rw [encodeSample, hc, if_pos hneg, truncQ, if_neg (not_le.mpr hq2)]
      refine toInt16_eq_self _ ?_ ?_
      · have h4 : ((-32768 : ℤ) : ℚ) ≤ (⌈s * 32768⌉ : ℚ) :=
          le_trans (by push_cast; linarith) (Int.le_ceil _)
        exact_mod_cast h4
      · have h5 : ⌈s * 32768⌉ ≤ (0 : ℤ) := Int.ceil_le.mpr (by push_cast; linarith)
        omega
    have hle : s * 32768 ≤ ((⌈s * 32768⌉ : ℤ) : ℚ) := Int.le_ceil _
    have hlt : ((⌈s * 32768⌉ : ℤ) : ℚ) < s * 32768 + 1 := Int.ceil_lt_add_one _
    have habs : |s - decodeSample (encodeSample s)| = ((⌈s * 32768⌉ : ℤ) : ℚ) / 32768 - s := by
      rw [henc, decodeSample, abs_sub_comm, abs_of_nonneg (by linarith)]
    refine ⟨by rw [habs]; linarith, fun _ => by rw [habs]; linarith,
      encode_neg_one, decode_encode_neg_one⟩
  · have hpos : (0 : ℚ) ≤ s := not_lt.mp hneg
    have hq2 : (0 : ℚ) ≤ s * 32767 := by positivity
    have henc : encodeSample s = ⌊s * 32767⌋ := by
      rw [encodeSample, hc, if_neg (not_lt.mpr hpos), truncQ, if_pos hq2]
      refine toInt16_eq_self _ ?_ ?_
      · have h4 : (0 : ℤ) ≤ ⌊s * 32767⌋ := Int.floor_nonneg.mpr hq2
        omega
      · have h5 : ((⌊s * 32767⌋ : ℤ) : ℚ) ≤ 32767 := le_trans (Int.floor_le _) (by linarith)
        exact_mod_cast h5
    have hfl : ((⌊s * 32767⌋ : ℤ) : ℚ) ≤ s * 32767 := Int.floor_le _
    have hfl2 : s * 32767 - 1 < ((⌊s * 32767⌋ : ℤ) : ℚ) := Int.sub_one_lt_floor _
    have habs : |s - decodeSample (encodeSample s)| = s - ((⌊s * 32767⌋ : ℤ) : ℚ) / 32768 := by
      rw [henc, decodeSample, abs_of_nonneg (by linarith)]
    refine ⟨by rw [habs]; linarith, fun hs0 => ?_, encode_neg_one, decode_encode_neg_one⟩
    have hf0 : (0 : ℚ) ≤ ((⌊s * 32767⌋ : ℤ) : ℚ) := by exact_mod_cast Int.floor_nonneg.mpr hq2
    rw [habs]; linarith

/-- Witness for C3 at the concrete sample -1/2. -/
theorem C3_pcm16_roundtrip_witness :
    |(-1/2 : ℚ) - decodeSample (encodeSample (-1/2))| < 2 / 32768 :=
  (C3_pcm16_roundtrip (-1/2) (by norm_num) (by norm_num)).1

/-! ### End-of-turn marker and mode-gated capture -/

/-- The silence chunk built at the call site createSilentAudio(16000, 0.5)
is exactly 8000 zero-valued 16-bit samples. -/
theorem createSilentAudio_eq : createSilentAudio 16000 (1/2) = List.replicate 8000 0 := by
  norm_num [createSilentAudio]
  decide

/-- C4: end-of-turn marker.  Toggling the mic while connected and
listening (the Listening to Thinking transition) sends exactly one
silence chunk of exactly 8000 zero-valued samples (0.5 s at 16 kHz); a
toggle in any other mode, or while not connected, sends no chunk at
all. -/
theorem C4_end_of_turn_marker (st : AgentState) :
    (st.status = ConnectionStatus.CONNECTED → st.mode = AgentMode.listening →
      (toggleMic st).2 = some (List.replicate 8000 0) ∧
      (toggleMic st).1.mode = AgentMode.thinking) ∧
    (st.mode ≠ AgentMode.listening → (toggleMic st).2 = none) ∧
    (st.status ≠ ConnectionStatus.CONNECTED → (toggleMic st).2 = none) := by
  refine ⟨fun hs hm => ?_, fun hm => ?_, fun hs => ?_⟩
  · rw [toggleMic, if_neg (by simp [hs]), if_pos hm]
    refine ⟨?_, rfl⟩
    show some (createSilentAudio 16000 (1/2)) = some (List.replicate 8000 0)
    rw [createSilentAudio_eq]
  · by_cases hs : st.status = ConnectionStatus.CONNECTED
    · simp [toggleMic, hs, hm]
    · simp [toggleMic, hs]
  · simp [toggleMic, hs]

/-- Witness for C4 at a concrete connected listening state. -/
theorem C4_end_of_turn_marker_witness :
    (toggleMic { status := ConnectionStatus.CONNECTED, mode := AgentMode.listening }).2 =
      some (List.replicate 8000 0) :=
  ((C4_end_of_turn_marker
      { status := ConnectionStatus.CONNECTED, mode := AgentMode.listening }).1 rfl rfl).1

/-- C5: mode-gated capture.  For every captured frame, if the mode is not
listening then no chunk is sent and the reported volume is 0; if the mode
is listening then the frame is PCM16-encoded and sent, and the reported
volume is min(1, rms * 5) where rms is the root mean square over all
samples of the frame. -/
theorem C5_mode_gated_capture (st : AgentState) (frame : List ℚ) :
    (st.mode ≠ AgentMode.listening →
      (processFrame st frame).2 = none ∧
      (processFrame st frame).1.volume = VolLevel.zero ∧
      ∀ v : ℝ, volIs (processFrame st frame).1.volume v → v = 0) ∧
    (st.mode = AgentMode.listening →
      (processFrame st frame).2 = some (createPcmChunk frame) ∧
      (processFrame st frame).1.volume = VolLevel.ofMeanSq (meanSq frame) ∧
      ∀ v : ℝ, volIs (processFrame st frame).1.volume v →
        v = min 1 (5 * Real.sqrt ((((frame.map fun s => s * s).sum / (frame.length : ℚ)) : ℚ) : ℝ))) := by
  constructor
  · intro hm
    refine ⟨?_, ?_, ?_⟩ <;> simp [processFrame, hm, volIs]
  · intro hm
    refine ⟨?_, ?_, ?_⟩ <;> simp [processFrame, hm, volIs, meanSq]

/-- Witness for C5 at a concrete listening state and a concrete frame. -/
theorem C5_mode_gated_capture_witness :
    (processFrame { status := ConnectionStatus.CONNECTED, mode := AgentMode.listening }
        [1, -1]).2 = some (createPcmChunk [1, -1]) :=
  ((C5_mode_gated_capture
      { status := ConnectionStatus.CONNECTED, mode := AgentMode.listening } [1, -1]).2 rfl).1

/-! ### Cleanup, preemption, failed connect, debounce, unconditional interrupt -/

/-- C6: the cleanup path at a concrete disconnecting state.  cleanup
releases the capture device, closes both contexts, stops and clears every
in-flight unit, closes the transport session and moves to inactive — but
it leaves the playback cursor nextStartTime at its old value 5 instead of
resetting it to zero, contradicting the claimed flush semantics. -/
theorem C6_cleanup_divergence :
    cleanup { status := ConnectionStatus.CONNECTED, mode := AgentMode.speaking,
              streamOpen := true, inputCtxOpen := true, outputCtxOpen := true,
              sessionOpen := true, nextStartTime := 5, inFlight := [7] } =
      { status := ConnectionStatus.DISCONNECTED, mode := AgentMode.inactive,
        streamOpen := false, inputCtxOpen := false, outputCtxOpen := false,
        sessionOpen := false, nextStartTime := 5, inFlight := [], stopped := [7] } ∧
    (cleanup { status := ConnectionStatus.CONNECTED, mode := AgentMode.speaking,
               streamOpen := true, inputCtxOpen := true, outputCtxOpen := true,
               sessionOpen := true, nextStartTime := 5, inFlight := [7] }).nextStartTime ≠ 0 := by
  refine ⟨rfl, ?_⟩
  norm_num [cleanup]

/-- C7: starting to talk preempts playback.  Toggling the mic on while
connected in ready or speaking stops every in-flight unit, clears the
in-flight set, resets the playback cursor to zero and moves the mode to
listening, sending nothing. -/
theorem C7_listen_preempts_playback (st : AgentState)
    (hs : st.status = ConnectionStatus.CONNECTED)
    (hm : st.mode = AgentMode.ready ∨ st.mode = AgentMode.speaking) :
    (toggleMic st).1.mode = AgentMode.listening ∧
    (toggleMic st).1.inFlight = [] ∧
    (toggleMic st).1.nextStartTime = 0 ∧
    (toggleMic st).2 = none ∧
    ∀ id ∈ st.inFlight, id ∈ (toggleMic st).1.stopped := by
  have hne : st.mode ≠ AgentMode.listening := by
    rcases hm with h | h <;> simp [h]
  refine ⟨?_, ?_, ?_, ?_, fun id hid => ?_⟩
  · simp [toggleMic, hs, hne]
  · simp [toggleMic, hs, hne]
  · simp [toggleMic, hs, hne]
  · simp [toggleMic, hs, hne]
  · simp [toggleMic, hs, hne, hid]

/-- Witness for C7 at a concrete speaking state with a unit in flight. -/
theorem C7_listen_preempts_playback_witness :
    (toggleMic { status := ConnectionStatus.CONNECTED, mode := AgentMode.speaking,
                 inFlight := [3], nextStartTime := 2 }).1.mode = AgentMode.listening :=
  (C7_listen_preempts_playback
    { status := ConnectionStatus.CONNECTED, mode := AgentMode.speaking,
      inFlight := [3], nextStartTime := 2 } rfl (Or.inr rfl)).1

/-- C8 counterexample: in a handshake-failing connect attempt started from
the idle state, the capture device IS opened during the attempt (the code
calls getUserMedia before the transport handshake), refuting the claim
that it is never opened; the mode does return to inactive. -/
theorem C8_counterexample :
    (connect {} ConnectOutcome.handshakeFail).2 = true ∧
    (connect {} ConnectOutcome.handshakeFail).1.mode = AgentMode.inactive ∧
    (connect {} ConnectOutcome.handshakeFail).1.streamOpen = false := ⟨rfl, rfl, rfl⟩

/-- C8 (amended): failed connect leaves no capture device open.  For every
non-successful outcome of a connect attempt started from the idle state,
the mode ends inactive, any capture device opened during the attempt has
been released, the transport session is closed, and the status is not
connected. -/
theorem C8_failed_connect (st : AgentState) (o : ConnectOutcome)
    (ho : o ≠ ConnectOutcome.ok)
    (hm : st.mode = AgentMode.inactive)
    (hstream : st.streamOpen = false)
    (hsess : st.sessionOpen = false)
    (hstat : st.status = ConnectionStatus.DISCONNECTED) :
    (connect st o).1.mode = AgentMode.inactive ∧
    (connect st o).1.streamOpen = false ∧
    (connect st o).1.sessionOpen = false ∧
    (connect st o).1.status ≠ ConnectionStatus.CONNECTED := by
  cases o with
  | noApiKey => simp [connect, hm, hstream, hsess, hstat]
  | micFail => simp [connect, cleanup]
  | handshakeFail => simp [connect, cleanup]
  | ok => exact absurd rfl ho

/-- Witness for C8 at the idle state and a failing handshake. -/
theorem C8_failed_connect_witness :
    (connect {} ConnectOutcome.handshakeFail).1.streamOpen = false :=
  (C8_failed_connect {} ConnectOutcome.handshakeFail (by decide) rfl rfl rfl rfl).2.1

/-- C9: debounced return to ready with race guard.  When the grace timer
fires, the Speaking to Ready transition happens only if the in-flight set
is still empty and the mode is still speaking; if playback units are
pending (new audio arrived and is still playing) or the user has already
moved the mode to listening, the firing is a no-op.  The ended listener
schedules the timer exactly when removing the finished unit empties the
in-flight set, and toggling the mic to listening before the timer fires
suppresses the transition. -/
theorem C9_debounced_ready (st : AgentState) :
    ((graceFire st).mode = AgentMode.ready →
      st.mode = AgentMode.ready ∨ (st.inFlight = [] ∧ st.mode = AgentMode.speaking)) ∧
    (st.inFlight = [] → st.mode = AgentMode.speaking →
      (graceFire st).mode = AgentMode.ready) ∧
    (st.inFlight ≠ [] → graceFire st = st) ∧
    (st.mode = AgentMode.listening → graceFire st = st) ∧
    (∀ id, (onEnded id st).2 = true ↔ (onEnded id st).1.inFlight = []) ∧
    (st.status = ConnectionStatus.CONNECTED → st.mode = AgentMode.speaking →
      (toggleMic st).1.mode = AgentMode.listening ∧
      graceFire (toggleMic st).1 = (toggleMic st).1) := by
  refine ⟨?_, ?_, ?_, ?_, ?_, ?_⟩
  · intro h
    by_cases hc : st.inFlight = [] ∧ st.mode = AgentMode.speaking
    · exact Or.inr hc
    · left; rw [graceFire, if_neg hc] at h; exact h
  · intro h1 h2; simp [graceFire, h1, h2]
  · intro h; rw [graceFire, if_neg (by simp [h])]
  · intro h; rw [graceFire, if_neg (by simp [h])]
  · intro id; simp [onEnded, List.isEmpty_iff]
  · intro hs hm
    have hne : st.mode ≠ AgentMode.listening := by simp [hm]
    have h1 : (toggleMic st).1.mode = AgentMode.listening := by
      simp [toggleMic, hs, hne]
    refine ⟨h1, ?_⟩
    rw [graceFire, if_neg (by simp [h1])]

/-- Witness for C9 at a concrete speaking state with an empty in-flight
set. -/
theorem C9_debounced_ready_witness :
    (graceFire { mode := AgentMode.speaking }).mode = AgentMode.ready :=
  (C9_debounced_ready { mode := AgentMode.speaking }).2.1 rfl rfl

/-- C10: the interrupted handler is unconditional on mode.  In every
connected mode a remote interrupted signal stops all in-flight units,
empties the in-flight set, zeroes the playback cursor and sets the mode
to ready; in particular after an interrupt received while listening the
capture path sends nothing and reports volume zero. -/
theorem C10_interrupted_any_connected_mode (st : AgentState)
    (h : st.mode = AgentMode.ready ∨ st.mode = AgentMode.listening ∨
      st.mode = AgentMode.thinking ∨ st.mode = AgentMode.speaking) :
    (onInterrupted st).mode = AgentMode.ready ∧
    (onInterrupted st).inFlight = [] ∧
    (onInterrupted st).nextStartTime = 0 ∧
    (∀ id ∈ st.inFlight, id ∈ (onInterrupted st).stopped) ∧
    (∀ frame, (processFrame (onInterrupted st) frame).2 = none ∧
      (processFrame (onInterrupted st) frame).1.volume = VolLevel.zero) := by
  refine ⟨rfl, rfl, rfl, fun id hid => ?_, fun frame => ?_⟩
  · simp [onInterrupted, hid]
  · constructor <;> simp [processFrame, onInterrupted]

/-- Witness for C10 at a concrete listening state with a unit in
flight. -/
theorem C10_interrupted_any_connected_mode_witness :
    (onInterrupted { mode := AgentMode.listening, inFlight := [4] }).mode = AgentMode.ready :=
  (C10_interrupted_any_connected_mode { mode := AgentMode.listening, inFlight := [4] }
    (Or.inr (Or.inl rfl))).1

end VoiceWA
